import Mathlib

/-!
Shallow embedding of the valorant statistics backend (RiotAPIService).

JavaScript numbers appearing as exact counters are modelled as `Nat`;
derived ratios are computed over `ℚ`.  A JavaScript value that is either
a number or a formatted string (the `toFixed` results) is modelled by
`JSVal`.  JavaScript objects used as string-keyed maps (`stats.agents`,
`stats.maps`, `match.teams`) are modelled as insertion-ordered
association lists.  Asynchronous upstream fetches are modelled by
passing the fetch outcomes (`Except String _`) as explicit arguments.
-/

set_option linter.unusedVariables false
set_option linter.unnecessarySeqFocus false

/-- A JavaScript value that is either a number or a string
(ratio fields hold `toFixed` strings on one branch and raw numbers on the other). -/
inductive JSVal where
  | num (q : ℚ)
  | str (s : String)
  deriving DecidableEq, Repr

/-- Returns `true` iff the value is a number (not a formatted string). -/
def JSVal.isNum : JSVal → Bool
  | .num _ => true
  | .str _ => false

/-- JavaScript `Math.round`: round half toward positive infinity. -/
def jsRound (q : ℚ) : ℤ := ⌊q + 1/2⌋

/-- Hexadecimal digit character (uppercase), for percent encoding. -/
def hexDigit (n : Nat) : Char :=
  if n < 10 then Char.ofNat (48 + n) else Char.ofNat (55 + n)

/-- Two-digit decimal rendering of `n < 100`. -/
def twoDigits (n : Nat) : String :=
  (if n < 10 then "0" else "") ++ Nat.repr n

/-- JavaScript `x.toFixed(2)` for nonnegative `x`: round to the nearest
multiple of 1/100 (ties away from zero) and format with two decimals. -/
def toFixed2 (q : ℚ) : String :=
  let m : Nat := (⌊q * 100 + 1/2⌋).toNat
  Nat.repr (m / 100) ++ "." ++ twoDigits (m % 100)

/-- JavaScript `x.toFixed(1)` for nonnegative `x`. -/
def toFixed1 (q : ℚ) : String :=
  let m : Nat := (⌊q * 10 + 1/2⌋).toNat
  Nat.repr (m / 10) ++ "." ++ Nat.repr (m % 10)

/-- UTF-8 byte sequence of a unicode code point. -/
def utf8Bytes (n : Nat) : List Nat :=
  if n < 128 then [n]
  else if n < 2048 then [192 + n / 64, 128 + n % 64]
  else if n < 65536 then [224 + n / 4096, 128 + (n / 64) % 64, 128 + n % 64]
  else [240 + n / 262144, 128 + (n / 4096) % 64, 128 + (n / 64) % 64, 128 + n % 64]

/-- Characters `encodeURIComponent` leaves unescaped:
`A-Z a-z 0-9 - _ . ! ~ * ( )` and the apostrophe (code 39). -/
def isUnreservedURIChar (c : Char) : Bool :=
  (65 ≤ c.toNat && c.toNat ≤ 90) || (97 ≤ c.toNat && c.toNat ≤ 122) ||
  (48 ≤ c.toNat && c.toNat ≤ 57) ||
  [45, 95, 46, 33, 126, 42, 39, 40, 41].contains c.toNat

/-- Percent-encoding of one character as UTF-8 `%XX` escapes. -/
def percentEncodeChar (c : Char) : String :=
  String.join ((utf8Bytes c.toNat).map
    (fun b => "%" ++ String.singleton (hexDigit (b / 16)) ++ String.singleton (hexDigit (b % 16))))

/-- JavaScript `String.prototype.toLowerCase` (used on team names), modelled
structurally as the character-wise ASCII case mapping over the character list of the string. -/
def jsToLower (s : String) : String := ⟨s.data.map Char.toLower⟩

/-- JavaScript `encodeURIComponent`. -/
def encodeURIComponent (s : String) : String :=
  String.join (s.data.map
    (fun c => if isUnreservedURIChar c then String.singleton c else percentEncodeChar c))

/-- One entry per team in `match.teams`. -/
structure TeamRec where
  has_won : Bool
  rounds_won : Nat
  rounds_lost : Nat
  deriving DecidableEq, Repr

/-- The `player.stats` block of a participation record. -/
structure PlayerStatsRec where
  kills : Nat
  deaths : Nat
  assists : Nat
  score : Nat
  deriving DecidableEq, Repr

/-- The `player.damage_made` block; the fields are read with a `|| 0` fallback. -/
structure DamageMade where
  headshots : Option Nat
  bodyshots : Option Nat
  legshots : Option Nat
  deriving DecidableEq, Repr

/-- One entry of `match.players.all_players`. -/
structure MPlayer where
  puuid : String
  team : String
  stats : PlayerStatsRec
  damage_made : Option DamageMade
  character : String
  deriving DecidableEq, Repr

/-- The `match.players` block. -/
structure PlayersRec where
  all_players : List MPlayer
  deriving DecidableEq, Repr

/-- The `match.metadata` block. -/
structure Metadata where
  matchid : String
  map : String
  mode : String
  game_start : Nat
  deriving DecidableEq, Repr

/-- A raw match record as consumed by `calculatePlayerStats`.
`teams` is the string-keyed object `match.teams`. -/
structure MatchRec where
  metadata : Metadata
  players : PlayersRec
  teams : List (String × TeamRec)
  deriving DecidableEq, Repr

/-- Per-agent breakdown entry (`stats.agents[name]`). -/
structure AgentStats where
  «matches» : Nat
  wins : Nat
  kills : Nat
  deaths : Nat
  assists : Nat
  kd : JSVal
  winRate : JSVal
  deriving DecidableEq, Repr

/-- The zero-initialised agent entry created on first sight of an agent. -/
def zeroAgentStats : AgentStats :=
  { «matches» := 0, wins := 0, kills := 0, deaths := 0, assists := 0
    kd := .num 0, winRate := .num 0 }

/-- Per-map breakdown entry (`stats.maps[name]`); the derived ratio fields
are attached after the fold. -/
structure MapStats where
  «matches» : Nat
  wins : Nat
  kills : Nat
  deaths : Nat
  roundsWon : Nat
  roundsLost : Nat
  winRate : JSVal
  kd : JSVal
  roundWinRate : JSVal
  deriving DecidableEq, Repr

/-- The zero-initialised map entry created on first sight of a map. -/
def zeroMapStats : MapStats :=
  { «matches» := 0, wins := 0, kills := 0, deaths := 0, roundsWon := 0, roundsLost := 0
    winRate := .num 0, kd := .num 0, roundWinRate := .num 0 }

/-- One element of `stats.recentMatches`; `date` is the epoch-millisecond
value `game_start * 1000`. -/
structure RecentMatch where
  matchId : String
  map : String
  mode : String
  date : Nat
  kills : Nat
  deaths : Nat
  assists : Nat
  score : Nat
  agent : String
  won : Bool
  roundsWon : Nat
  roundsLost : Nat
  deriving DecidableEq, Repr

/-- The statistics object built by `calculatePlayerStats`. -/
structure Stats where
  totalMatches : Nat
  wins : Nat
  losses : Nat
  draws : Nat
  totalKills : Nat
  totalDeaths : Nat
  totalAssists : Nat
  totalScore : Nat
  totalRounds : Nat
  roundsWon : Nat
  roundsLost : Nat
  headshotPercentage : JSVal
  totalHeadshots : Nat
  totalBodyshots : Nat
  totalLegshots : Nat
  agents : List (String × AgentStats)
  weapons : List (String × Unit)
  maps : List (String × MapStats)
  recentMatches : List RecentMatch
  kd : JSVal
  winRate : JSVal
  averageKills : JSVal
  averageDeaths : JSVal
  averageAssists : JSVal
  averageScore : JSVal
  deriving DecidableEq, Repr

/-- The literal initial `stats` object of `calculatePlayerStats`
(`totalMatches` is set to `«matches».length` up front; the derived ratio
fields are assigned after the fold and start at 0). -/
def initStats (numMatches : Nat) : Stats :=
  { totalMatches := numMatches, wins := 0, losses := 0, draws := 0
    totalKills := 0, totalDeaths := 0, totalAssists := 0, totalScore := 0
    totalRounds := 0, roundsWon := 0, roundsLost := 0
    headshotPercentage := .num 0
    totalHeadshots := 0, totalBodyshots := 0, totalLegshots := 0
    agents := [], weapons := [], maps := [], recentMatches := []
    kd := .num 0, winRate := .num 0
    averageKills := .num 0, averageDeaths := .num 0, averageAssists := .num 0
    averageScore := .num 0 }

/-- Update an insertion-ordered association list at key `k`: apply `f` to the
existing value, or to `dflt` with the new pair appended at the end (the
JavaScript create-if-absent-then-mutate pattern on an object). -/
def updAssoc {α : Type} (l : List (String × α)) (k : String) (dflt : α) (f : α → α) :
    List (String × α) :=
  match l with
  | [] => [(k, f dflt)]
  | (k', v) :: rest => if k' == k then (k', f v) :: rest else (k', v) :: updAssoc rest k dflt f

/-- The accumulation `stats.totalKills += ...` through `stats.totalScore += ...`. -/
def addBasic (player : MPlayer) (s : Stats) : Stats :=
  { s with
    totalKills := s.totalKills + player.stats.kills
    totalDeaths := s.totalDeaths + player.stats.deaths
    totalAssists := s.totalAssists + player.stats.assists
    totalScore := s.totalScore + player.stats.score }

/-- The round accumulation done when the team entry of the subject exists. -/
def addRounds (team : TeamRec) (s : Stats) : Stats :=
  { s with
    roundsWon := s.roundsWon + team.rounds_won
    roundsLost := s.roundsLost + team.rounds_lost
    totalRounds := s.totalRounds + (team.rounds_won + team.rounds_lost) }

/-- The draw heuristic `teams.red?.rounds_won === teams.blue?.rounds_won`:
optional-chained accesses compared with strict equality (`undefined === undefined`
is `true`). -/
def redBlueRoundsEqual (m : MatchRec) : Bool :=
  ((m.teams.lookup "red").map TeamRec.rounds_won) == ((m.teams.lookup "blue").map TeamRec.rounds_won)

/-- Outcome classification: `has_won` first, then the red/blue round-count
draw heuristic, otherwise a loss. Runs only when the team entry of the subject exists. -/
def addOutcome (m : MatchRec) (team : TeamRec) (s : Stats) : Stats :=
  if team.has_won then { s with wins := s.wins + 1 }
  else if redBlueRoundsEqual m then { s with draws := s.draws + 1 }
  else { s with losses := s.losses + 1 }

/-- Shot-placement accumulation, guarded by `if (player.damage_made)`. -/
def addDamage (player : MPlayer) (s : Stats) : Stats :=
  match player.damage_made with
  | none => s
  | some dm =>
    { s with
      totalHeadshots := s.totalHeadshots + dm.headshots.getD 0
      totalBodyshots := s.totalBodyshots + dm.bodyshots.getD 0
      totalLegshots := s.totalLegshots + dm.legshots.getD 0 }

/-- Per-agent accumulation (`stats.agents[agentName]`); the win increment is
optional-chained on the team entry. -/
def addAgent (player : MPlayer) (team? : Option TeamRec) (s : Stats) : Stats :=
  { s with
    agents := updAssoc s.agents player.character zeroAgentStats (fun a =>
      { a with
        «matches» := a.«matches» + 1
        kills := a.kills + player.stats.kills
        deaths := a.deaths + player.stats.deaths
        assists := a.assists + player.stats.assists
        wins := if (team?.map TeamRec.has_won).getD false then a.wins + 1 else a.wins }) }

/-- Per-map accumulation (`stats.maps[mapName]`); rounds and win increment
run only when the team entry exists. -/
def addMapStats (m : MatchRec) (player : MPlayer) (team? : Option TeamRec) (s : Stats) : Stats :=
  { s with
    maps := updAssoc s.maps m.metadata.map zeroMapStats (fun mp =>
      let mp := { mp with
        «matches» := mp.«matches» + 1
        kills := mp.kills + player.stats.kills
        deaths := mp.deaths + player.stats.deaths }
      match team? with
      | none => mp
      | some team =>
        let mp := { mp with
          roundsWon := mp.roundsWon + team.rounds_won
          roundsLost := mp.roundsLost + team.rounds_lost }
        if team.has_won then { mp with wins := mp.wins + 1 } else mp) }

/-- The `stats.recentMatches.push` of the per-match summary. -/
def addRecent (m : MatchRec) (player : MPlayer) (team? : Option TeamRec) (s : Stats) : Stats :=
  { s with
    recentMatches := s.recentMatches ++ [{
      matchId := m.metadata.matchid
      map := m.metadata.map
      mode := m.metadata.mode
      date := m.metadata.game_start * 1000
      kills := player.stats.kills
      deaths := player.stats.deaths
      assists := player.stats.assists
      score := player.stats.score
      agent := player.character
      won := (team?.map TeamRec.has_won).getD false
      roundsWon := (team?.map TeamRec.rounds_won).getD 0
      roundsLost := (team?.map TeamRec.rounds_lost).getD 0 }] }

/-- The body of the `«matches».forEach` loop of `calculatePlayerStats`:
locate the subject (`find` on `all_players`), early-return when absent,
then accumulate. -/
def processMatch (puuid : String) (s : Stats) (m : MatchRec) : Stats :=
  match m.players.all_players.find? (fun p => p.puuid == puuid) with
  | none => s
  | some player =>
    let team? := m.teams.lookup (jsToLower player.team)
    let s1 := addBasic player s
    let s2 :=
      match team? with
      | none => s1
      | some team => addOutcome m team (addRounds team s1)
    let s3 := addDamage player s2
    let s4 := addAgent player team? s3
    let s5 := addMapStats m player team? s4
    addRecent m player team? s5

/-- The per-agent derived ratios attached after the fold. -/
def agentDerived (a : AgentStats) : AgentStats :=
  { a with
    kd := if a.deaths > 0 then .str (toFixed2 ((a.kills : ℚ) / (a.deaths : ℚ))) else .num a.kills
    winRate := if a.«matches» > 0
      then .str (toFixed1 (((a.wins : ℚ) / (a.«matches» : ℚ)) * 100)) else .num 0 }

/-- The per-map derived ratios attached after the fold. -/
def mapDerived (mp : MapStats) : MapStats :=
  { mp with
    winRate := if mp.«matches» > 0
      then .str (toFixed1 (((mp.wins : ℚ) / (mp.«matches» : ℚ)) * 100)) else .num 0
    kd := if mp.deaths > 0 then .str (toFixed2 ((mp.kills : ℚ) / (mp.deaths : ℚ))) else .num mp.kills
    roundWinRate := if mp.roundsWon + mp.roundsLost > 0
      then .str (toFixed1 (((mp.roundsWon : ℚ) / ((mp.roundsWon : ℚ) + (mp.roundsLost : ℚ))) * 100))
      else .num 0 }

/-- The function `calculatePlayerStats(matchList, puuid)`: fold the matches, then attach the
derived ratios (`toFixed` produces strings; the zero-denominator branches
produce numbers). -/
def calculatePlayerStats («matches» : List MatchRec) (puuid : String) : Stats :=
  let s := «matches».foldl (processMatch puuid) (initStats «matches».length)
  let totalShots := s.totalHeadshots + s.totalBodyshots + s.totalLegshots
  { s with
    kd := if s.totalDeaths > 0
      then .str (toFixed2 ((s.totalKills : ℚ) / (s.totalDeaths : ℚ))) else .num s.totalKills
    winRate := if s.totalMatches > 0
      then .str (toFixed1 (((s.wins : ℚ) / (s.totalMatches : ℚ)) * 100)) else .num 0
    headshotPercentage := if totalShots > 0
      then .str (toFixed1 (((s.totalHeadshots : ℚ) / (totalShots : ℚ)) * 100)) else .num 0
    averageKills := if s.totalMatches > 0
      then .str (toFixed1 ((s.totalKills : ℚ) / (s.totalMatches : ℚ))) else .num 0
    averageDeaths := if s.totalMatches > 0
      then .str (toFixed1 ((s.totalDeaths : ℚ) / (s.totalMatches : ℚ))) else .num 0
    averageAssists := if s.totalMatches > 0
      then .str (toFixed1 ((s.totalAssists : ℚ) / (s.totalMatches : ℚ))) else .num 0
    averageScore := if s.totalMatches > 0
      then .num ((jsRound ((s.totalScore : ℚ) / (s.totalMatches : ℚ)) : ℤ) : ℚ) else .num 0
    agents := s.agents.map (fun kv => (kv.1, agentDerived kv.2))
    maps := s.maps.map (fun kv => (kv.1, mapDerived kv.2)) }

/-! ## Upstream client: region tables, request shapes and the cache-fronted request helper -/

/-- The `this.regions` table of routing-region base URLs. -/
def regions : List (String × String) :=
  [("europe", "https://europe.api.riotgames.com"),
   ("americas", "https://americas.api.riotgames.com"),
   ("asia", "https://asia.api.riotgames.com"),
   ("ap", "https://ap.api.riotgames.com")]

/-- The `this.platformUrls` table of platform-region base URLs. -/
def platformUrls : List (String × String) :=
  [("eu", "https://eu.api.riotgames.com"),
   ("na", "https://na.api.riotgames.com"),
   ("ap", "https://ap.api.riotgames.com"),
   ("kr", "https://kr.api.riotgames.com")]

/-- Lookup `this.regions[region]` interpolated into a template literal: an unknown
region yields the string `"undefined"`. -/
def regionBase (region : String) : String :=
  (regions.lookup region).getD "undefined"

/-- The URL and cache key a read operation hands to `makeRequest`. -/
structure RequestSpec where
  url : String
  cacheKey : Option String
  deriving DecidableEq, Repr

/-- The request issued by `getAccountByRiotId(gameName, tagLine, region)`. -/
def getAccountByRiotIdReq (gameName tagLine region : String) : RequestSpec :=
  { url := regionBase region ++ "/riot/account/v1/accounts/by-riot-id/"
      ++ encodeURIComponent gameName ++ "/" ++ encodeURIComponent tagLine
    cacheKey := some ("account:" ++ gameName ++ ":" ++ tagLine) }

/-- The request issued by `getMatchHistory(puuid, region, count)`; the URL
carries no count parameter, `count` appears only in the cache key. -/
def getMatchHistoryReq (puuid region : String) (count : Nat) : RequestSpec :=
  { url := regionBase region ++ "/val/match/v1/matchlists/by-puuid/" ++ puuid
    cacheKey := some ("matches:" ++ puuid ++ ":" ++ Nat.repr count) }

/-- The request issued by `getMatchDetails(matchId, region)`. -/
def getMatchDetailsReq (matchId region : String) : RequestSpec :=
  { url := regionBase region ++ "/val/match/v1/matches/" ++ matchId
    cacheKey := some ("match:" ++ matchId) }

/-- The helper `makeRequest(url, cacheKey)` against an explicit cache state, with the
network outcome for the URL passed in as `fetch`.  Returns the response
(or error), the cache after the call, and whether the network was hit:
a cached value short-circuits; a successful fetch is stored under the key;
a failed fetch is rethrown and caches nothing. -/
def makeRequest {α : Type} (cache : List (String × α)) (cacheKey : Option String)
    (fetch : Except String α) : Except String α × List (String × α) × Bool :=
  match cacheKey with
  | some k =>
    match cache.lookup k with
    | some v => (.ok v, cache, false)
    | none =>
      match fetch with
      | .ok d => (.ok d, (k, d) :: cache, true)
      | .error e => (.error e, cache, true)
  | none =>
    match fetch with
    | .ok d => (.ok d, cache, true)
    | .error e => (.error e, cache, true)

/-! ## Match-list fan-out and the profile assembler -/

/-- One entry of the upstream match-list response (`matchHistory.history`). -/
structure HistoryEntry where
  matchId : String
  deriving DecidableEq, Repr

/-- The upstream match-list response. -/
structure MatchHistory where
  history : List HistoryEntry
  deriving DecidableEq, Repr

/-- Models `Promise.all` over already-settled fetches: the list of all values when
every fetch succeeded, otherwise a rejection. -/
def promiseAll {α : Type} : List (Except String α) → Except String (List α)
  | [] => .ok []
  | x :: xs =>
    match x with
    | .error e => .error e
    | .ok v =>
      match promiseAll xs with
      | .error e => .error e
      | .ok vs => .ok (v :: vs)

/-- The composite `getRecentMatchesWithDetails(puuid, region, count)`: fetch the match list,
then `Promise.all` a detail fetch for every entry of `history` (no slice to
`count`; `count` only reaches the match-list cache key).  The match-list
outcome and the per-match-id detail outcomes are passed in explicitly. -/
def getRecentMatchesWithDetails (count : Nat)
    (matchHistoryRes : Except String MatchHistory)
    (details : String → Except String MatchRec) : Except String (List MatchRec) :=
  match matchHistoryRes with
  | .error e => .error e
  | .ok mh => promiseAll (mh.history.map (fun h => details h.matchId))

/-- The inline fan-out of `getPlayerProfile`: take the first five match ids,
fetch each detail with a `.catch(e => null)`, and keep the non-null results.
A match-list failure is swallowed and yields the empty list. -/
def profileFetchMatches (matchHistoryRes : Except String MatchHistory)
    (details : String → Except String MatchRec) : List MatchRec :=
  match matchHistoryRes with
  | .error _ => []
  | .ok mh =>
    if mh.history.length > 0 then
      ((((mh.history.take 5).map (fun m => m.matchId)).map
        (fun matchId => (details matchId).toOption)).filterMap id)
    else []

/-- The resolved account (`riot/account/v1` response). -/
structure Account where
  puuid : String
  gameName : String
  tagLine : String
  deriving DecidableEq, Repr

/-- The zero-statistics object `getPlayerProfile` builds when no matches
could be fetched (its literal field set). -/
structure FallbackStats where
  totalMatches : Nat
  wins : Nat
  losses : Nat
  draws : Nat
  totalKills : Nat
  totalDeaths : Nat
  totalAssists : Nat
  kd : JSVal
  winRate : JSVal
  headshotPercentage : JSVal
  agents : List (String × AgentStats)
  maps : List (String × MapStats)
  recentMatches : List RecentMatch
  deriving DecidableEq, Repr

/-- The literal all-zero fallback snapshot. -/
def fallbackStats : FallbackStats :=
  { totalMatches := 0, wins := 0, losses := 0, draws := 0
    totalKills := 0, totalDeaths := 0, totalAssists := 0
    kd := .num 0, winRate := .num 0, headshotPercentage := .num 0
    agents := [], maps := [], recentMatches := [] }

/-- The statistics field of a profile: either a computed `Stats` or the
literal fallback object (the two object shapes of the JavaScript ternary). -/
inductive ProfileStats where
  | computed (s : Stats)
  | fallback (f : FallbackStats)
  deriving DecidableEq, Repr

/-- Reads `statistics.totalMatches` of either shape. -/
def ProfileStats.totalMatches : ProfileStats → Nat
  | .computed s => s.totalMatches
  | .fallback f => f.totalMatches

/-- The value returned by `getPlayerProfile`; `rank` is literally `null`. -/
structure Profile where
  account : Account
  rank : Option Unit
  statistics : ProfileStats
  lastUpdated : Nat
  deriving DecidableEq, Repr

/-- The assembler `getPlayerProfile(gameName, tagLine, region, platformRegion)` with the
upstream outcomes passed explicitly: a failed account resolution is
rethrown; a failed or empty match history degrades to the fallback
snapshot; `now` stands for `new Date()`. -/
def getPlayerProfile (now : Nat) (accountRes : Except String Account)
    (matchHistoryRes : Except String MatchHistory)
    (details : String → Except String MatchRec) : Except String Profile :=
  match accountRes with
  | .error e => .error e
  | .ok account =>
    let ms := profileFetchMatches matchHistoryRes details
    let stats : ProfileStats :=
      if ms.length > 0 then .computed (calculatePlayerStats ms account.puuid)
      else .fallback fallbackStats
    .ok { account := account, rank := none, statistics := stats, lastUpdated := now }

/-! ## Projection lemmas: the non-outcome accumulation steps leave the
outcome counters and `totalMatches` untouched -/

@[simp] lemma addBasic_wins (p : MPlayer) (s : Stats) : (addBasic p s).wins = s.wins := rfl
@[simp] lemma addBasic_losses (p : MPlayer) (s : Stats) : (addBasic p s).losses = s.losses := rfl
@[simp] lemma addBasic_draws (p : MPlayer) (s : Stats) : (addBasic p s).draws = s.draws := rfl
@[simp] lemma addBasic_totalMatches (p : MPlayer) (s : Stats) :
    (addBasic p s).totalMatches = s.totalMatches := rfl

@[simp] lemma addRounds_wins (t : TeamRec) (s : Stats) : (addRounds t s).wins = s.wins := rfl
@[simp] lemma addRounds_losses (t : TeamRec) (s : Stats) : (addRounds t s).losses = s.losses := rfl
@[simp] lemma addRounds_draws (t : TeamRec) (s : Stats) : (addRounds t s).draws = s.draws := rfl
@[simp] lemma addRounds_totalMatches (t : TeamRec) (s : Stats) :
    (addRounds t s).totalMatches = s.totalMatches := rfl

@[simp] lemma addDamage_wins (p : MPlayer) (s : Stats) : (addDamage p s).wins = s.wins := by
  unfold addDamage; cases p.damage_made <;> rfl
@[simp] lemma addDamage_losses (p : MPlayer) (s : Stats) : (addDamage p s).losses = s.losses := by
  unfold addDamage; cases p.damage_made <;> rfl
@[simp] lemma addDamage_draws (p : MPlayer) (s : Stats) : (addDamage p s).draws = s.draws := by
  unfold addDamage; cases p.damage_made <;> rfl
@[simp] lemma addDamage_totalMatches (p : MPlayer) (s : Stats) :
    (addDamage p s).totalMatches = s.totalMatches := by
  unfold addDamage; cases p.damage_made <;> rfl

@[simp] lemma addAgent_wins (p : MPlayer) (t? : Option TeamRec) (s : Stats) :
    (addAgent p t? s).wins = s.wins := rfl
@[simp] lemma addAgent_losses (p : MPlayer) (t? : Option TeamRec) (s : Stats) :
    (addAgent p t? s).losses = s.losses := rfl
@[simp] lemma addAgent_draws (p : MPlayer) (t? : Option TeamRec) (s : Stats) :
    (addAgent p t? s).draws = s.draws := rfl
@[simp] lemma addAgent_totalMatches (p : MPlayer) (t? : Option TeamRec) (s : Stats) :
    (addAgent p t? s).totalMatches = s.totalMatches := rfl

@[simp] lemma addMapStats_wins (m : MatchRec) (p : MPlayer) (t? : Option TeamRec) (s : Stats) :
    (addMapStats m p t? s).wins = s.wins := rfl
@[simp] lemma addMapStats_losses (m : MatchRec) (p : MPlayer) (t? : Option TeamRec) (s : Stats) :
    (addMapStats m p t? s).losses = s.losses := rfl
@[simp] lemma addMapStats_draws (m : MatchRec) (p : MPlayer) (t? : Option TeamRec) (s : Stats) :
    (addMapStats m p t? s).draws = s.draws := rfl
@[simp] lemma addMapStats_totalMatches (m : MatchRec) (p : MPlayer) (t? : Option TeamRec)
    (s : Stats) : (addMapStats m p t? s).totalMatches = s.totalMatches := rfl

@[simp] lemma addRecent_wins (m : MatchRec) (p : MPlayer) (t? : Option TeamRec) (s : Stats) :
    (addRecent m p t? s).wins = s.wins := rfl
@[simp] lemma addRecent_losses (m : MatchRec) (p : MPlayer) (t? : Option TeamRec) (s : Stats) :
    (addRecent m p t? s).losses = s.losses := rfl
@[simp] lemma addRecent_draws (m : MatchRec) (p : MPlayer) (t? : Option TeamRec) (s : Stats) :
    (addRecent m p t? s).draws = s.draws := rfl
@[simp] lemma addRecent_totalMatches (m : MatchRec) (p : MPlayer) (t? : Option TeamRec)
    (s : Stats) : (addRecent m p t? s).totalMatches = s.totalMatches := rfl

@[simp] lemma addOutcome_totalMatches (m : MatchRec) (t : TeamRec) (s : Stats) :
    (addOutcome m t s).totalMatches = s.totalMatches := by
  unfold addOutcome
  split
  · rfl
  · split <;> rfl



/-- The outcome classification always increments exactly one of the three
counters. -/
lemma addOutcome_outcome_sum (m : MatchRec) (t : TeamRec) (s : Stats) :
    (addOutcome m t s).wins + (addOutcome m t s).losses + (addOutcome m t s).draws
      = s.wins + s.losses + s.draws + 1 := by
  unfold addOutcome
  split
  · simp only [Stats.wins, Stats.losses, Stats.draws]; omega
  · split <;> (simp only [Stats.wins, Stats.losses, Stats.draws]; omega)

/-- A match contributes to the outcome counters exactly when the participation record of the subject
 is found and the team entry of the subject exists. -/
def countedMatch (puuid : String) (m : MatchRec) : Bool :=
  match m.players.all_players.find? (fun p => p.puuid == puuid) with
  | none => false
  | some player => (m.teams.lookup (jsToLower player.team)).isSome

lemma outcome_sum_processMatch (puuid : String) (s : Stats) (m : MatchRec) :
    (processMatch puuid s m).wins + (processMatch puuid s m).losses
        + (processMatch puuid s m).draws
      = s.wins + s.losses + s.draws + (if countedMatch puuid m then 1 else 0) := by
  unfold processMatch countedMatch
  cases hf : m.players.all_players.find? (fun p => p.puuid == puuid) with
  | none => simp
  | some player =>
    cases ht : m.teams.lookup (jsToLower player.team) with
    | none => simp [ht]
    | some team => simp [ht, addOutcome_outcome_sum]

lemma totalMatches_processMatch (puuid : String) (s : Stats) (m : MatchRec) :
    (processMatch puuid s m).totalMatches = s.totalMatches := by
  unfold processMatch
  cases hf : m.players.all_players.find? (fun p => p.puuid == puuid) with
  | none => rfl
  | some player =>
    cases ht : m.teams.lookup (jsToLower player.team) with
    | none => simp [ht]
    | some team => simp [ht]

lemma outcome_sum_foldl (puuid : String) (l : List MatchRec) (s : Stats) :
    (l.foldl (processMatch puuid) s).wins + (l.foldl (processMatch puuid) s).losses
        + (l.foldl (processMatch puuid) s).draws
      = s.wins + s.losses + s.draws + l.countP (countedMatch puuid) := by
  induction l generalizing s with
  | nil => simp
  | cons m rest ih =>
    rw [List.foldl_cons, ih, outcome_sum_processMatch, List.countP_cons]
    cases h : countedMatch puuid m <;> simp [h] <;> omega

lemma totalMatches_foldl (puuid : String) (l : List MatchRec) (s : Stats) :
    (l.foldl (processMatch puuid) s).totalMatches = s.totalMatches := by
  induction l generalizing s with
  | nil => rfl
  | cons m rest ih => rw [List.foldl_cons, ih, totalMatches_processMatch]

deriving instance DecidableEq for Except

/-! ## Behaviour of the `Promise.all` fan-out -/

lemma promiseAll_all_ok {α : Type} (l : List (Except String α))
    (h : ∀ x ∈ l, x.isOk = true) :
    promiseAll l = .ok (l.filterMap Except.toOption) := by
  induction l with
  | nil => rfl
  | cons x xs ih =>
    cases x with
    | error e =>
      have hcon := h _ (List.mem_cons_self _ _)
      simp [Except.isOk, Except.toBool] at hcon
    | ok v =>
      rw [List.filterMap_cons]
      simp only [Except.toOption]
      simp only [promiseAll]
      rw [ih (fun y hy => h y (List.mem_cons_of_mem _ hy))]

lemma promiseAll_has_error {α : Type} (l : List (Except String α))
    (h : ∃ x ∈ l, x.isOk = false) :
    (promiseAll l).isOk = false := by
  induction l with
  | nil => simp at h
  | cons x xs ih =>
    cases x with
    | error e => rfl
    | ok v =>
      have hx : ∃ y ∈ xs, y.isOk = false := by
        rcases h with ⟨y, hy, hne⟩
        rcases List.mem_cons.mp hy with h1 | h2
        · subst h1; simp [Except.isOk, Except.toBool] at hne
        · exact ⟨y, h2, hne⟩
      have hcon := ih hx
      simp only [promiseAll]
      cases hp : promiseAll xs with
      | error e => rfl
      | ok vs =>
        rw [hp] at hcon
        simp [Except.isOk, Except.toBool] at hcon

lemma filterMap_toOption_length {α : Type} (l : List (Except String α))
    (h : ∀ x ∈ l, x.isOk = true) :
    (l.filterMap Except.toOption).length = l.length := by
  induction l with
  | nil => rfl
  | cons x xs ih =>
    cases x with
    | error e =>
      have hcon := h _ (List.mem_cons_self _ _)
      simp [Except.isOk, Except.toBool] at hcon
    | ok v =>
      rw [List.filterMap_cons]
      simp only [Except.toOption, List.length_cons]
      rw [ih (fun y hy => h y (List.mem_cons_of_mem _ hy))]

/-! ## Concrete fixtures used by counterexamples and witnesses -/

/-- A fixed metadata block for fixture matches. -/
def exMeta : Metadata :=
  { matchid := "m1", map := "Ascent", mode := "Competitive", game_start := 1 }

/-- A fixture participation record on the given team with the given
kill and death counts. -/
def exPlayer (pid team : String) (k d : Nat) : MPlayer :=
  { puuid := pid, team := team, stats := { kills := k, deaths := d, assists := 0, score := 0 }
    damage_made := none, character := "Jett" }

/-- A fixture match record from a player list and a teams map. -/
def exMatch (ps : List MPlayer) (ts : List (String × TeamRec)) : MatchRec :=
  { metadata := exMeta, players := { all_players := ps }, teams := ts }

/-- A match with no participation records at all (the subject cannot be found). -/
def noPlayerMatch : MatchRec := exMatch [] []

/-- A detail record that fetches successfully in the fan-out fixtures. -/
def exDetail : MatchRec :=
  exMatch [exPlayer "p" "Red" 1 1] [("red", { has_won := true, rounds_won := 13, rounds_lost := 5 })]

/-- A two-entry match list whose second detail fetch will fail. -/
def exHist2 : MatchHistory := { history := [{ matchId := "m1" }, { matchId := "m2" }] }

/-- A three-entry match list (all details succeed). -/
def exHist3 : MatchHistory :=
  { history := [{ matchId := "m1" }, { matchId := "m2" }, { matchId := "m3" }] }

/-- Detail outcomes where only `"m1"` succeeds. -/
def exDetailsOneFails (matchId : String) : Except String MatchRec :=
  if matchId == "m1" then .ok exDetail else .error "boom"

/-- Detail outcomes where every fetch succeeds. -/
def exDetailsAllOk (matchId : String) : Except String MatchRec := .ok exDetail

/-- A match where the team of the subject has `has_won` and both teams have equal
`rounds_won` (the outcome-precedence edge case). -/
def winDrawMatch : MatchRec :=
  exMatch [exPlayer "p" "Red" 1 1]
    [("red", { has_won := true, rounds_won := 10, rounds_lost := 10 }),
     ("blue", { has_won := false, rounds_won := 10, rounds_lost := 10 })]

/-- A match whose teams map has neither a `"red"` nor a `"blue"` entry and
whose subject team has `has_won := false`. -/
def greenMatch : MatchRec :=
  exMatch [exPlayer "p" "Green" 2 3]
    [("green", { has_won := false, rounds_won := 8, rounds_lost := 8 })]

/-- A one-match sequence giving `totalKills = 20`, `totalDeaths = 10`. -/
def kd20Match : MatchRec :=
  exMatch [exPlayer "p" "Red" 20 10]
    [("red", { has_won := true, rounds_won := 13, rounds_lost := 5 })]

/-- A one-match sequence giving `totalKills = 7`, `totalDeaths = 0`. -/
def kd7Match : MatchRec :=
  exMatch [exPlayer "p" "Red" 7 0]
    [("red", { has_won := true, rounds_won := 13, rounds_lost := 5 })]

/-- A fixture resolved account. -/
def exAccount : Account := { puuid := "p", gameName := "name", tagLine := "tag" }

/-! ## Claims about the aggregation engine -/

/-- C2 (counterexample): for a one-match sequence in which the participation record of the subject
 cannot be located, `calculatePlayerStats` reports
`totalMatches = 1` but `wins + losses + draws = 0`, so the claimed invariant
`wins + losses + draws == totalMatches` fails. -/
theorem C2_counterexample :
    (calculatePlayerStats [noPlayerMatch] "p").wins
        + (calculatePlayerStats [noPlayerMatch] "p").losses
        + (calculatePlayerStats [noPlayerMatch] "p").draws = 0
    ∧ (calculatePlayerStats [noPlayerMatch] "p").totalMatches = 1
    ∧ ¬ ((calculatePlayerStats [noPlayerMatch] "p").wins
        + (calculatePlayerStats [noPlayerMatch] "p").losses
        + (calculatePlayerStats [noPlayerMatch] "p").draws
      = (calculatePlayerStats [noPlayerMatch] "p").totalMatches) := by
  decide

/-- C2 (amended): after folding, `wins + losses + draws` equals the number of
matches in which the participation record of the subject is found **and** the
team entry of the subject exists, while `totalMatches` is the full input length;
the two agree exactly when every match is counted. -/
theorem C2_amended (ms : List MatchRec) (puuid : String) :
    (calculatePlayerStats ms puuid).wins + (calculatePlayerStats ms puuid).losses
        + (calculatePlayerStats ms puuid).draws
      = ms.countP (countedMatch puuid)
    ∧ (calculatePlayerStats ms puuid).totalMatches = ms.length := by
  have e1 : (calculatePlayerStats ms puuid).wins
      = (ms.foldl (processMatch puuid) (initStats ms.length)).wins := rfl
  have e2 : (calculatePlayerStats ms puuid).losses
      = (ms.foldl (processMatch puuid) (initStats ms.length)).losses := rfl
  have e3 : (calculatePlayerStats ms puuid).draws
      = (ms.foldl (processMatch puuid) (initStats ms.length)).draws := rfl
  have e4 : (calculatePlayerStats ms puuid).totalMatches
      = (ms.foldl (processMatch puuid) (initStats ms.length)).totalMatches := rfl
  have h1 := outcome_sum_foldl puuid ms (initStats ms.length)
  have h2 := totalMatches_foldl puuid ms (initStats ms.length)
  rw [show (initStats ms.length).wins = 0 from rfl,
      show (initStats ms.length).losses = 0 from rfl,
      show (initStats ms.length).draws = 0 from rfl] at h1
  rw [show (initStats ms.length).totalMatches = ms.length from rfl] at h2
  constructor
  · rw [e1, e2, e3]; omega
  · rw [e4, h2]

/-- C7: on the empty match sequence `calculatePlayerStats` yields the
all-zero snapshot: zero totals, numeric-zero derived ratios, empty agent and
map breakdowns, and an empty recent-match list (and, being a total function,
no error). -/
theorem C7_holds (puuid : String) :
    (calculatePlayerStats [] puuid).totalMatches = 0
    ∧ (calculatePlayerStats [] puuid).kd = JSVal.num 0
    ∧ (calculatePlayerStats [] puuid).winRate = JSVal.num 0
    ∧ (calculatePlayerStats [] puuid).headshotPercentage = JSVal.num 0
    ∧ (calculatePlayerStats [] puuid).agents = []
    ∧ (calculatePlayerStats [] puuid).maps = []
    ∧ (calculatePlayerStats [] puuid).wins = 0
    ∧ (calculatePlayerStats [] puuid).losses = 0
    ∧ (calculatePlayerStats [] puuid).draws = 0
    ∧ (calculatePlayerStats [] puuid).recentMatches = [] := by
  have h : calculatePlayerStats [] puuid = calculatePlayerStats [] "" := rfl
  rw [h]
  refine ⟨rfl, ?_, ?_, ?_, rfl, rfl, rfl, rfl, rfl, rfl⟩ <;>
    simp [calculatePlayerStats, initStats]

/-- C9: `calculatePlayerStats` is deterministic — it is a pure function of
its two arguments, so two calls on equal match sequences and equal subject
puuids return identical snapshots (there is no dependence on call count,
time, or external state). -/
theorem C9_holds (ms1 ms2 : List MatchRec) (p1 p2 : String)
    (hm : ms1 = ms2) (hp : p1 = p2) :
    calculatePlayerStats ms1 p1 = calculatePlayerStats ms2 p2 := by
  rw [hm, hp]

/-- C9 witness: the two calls agree on a concrete match sequence. -/
theorem C9_witness :
    calculatePlayerStats [kd20Match] "p" = calculatePlayerStats [kd20Match] "p" :=
  C9_holds [kd20Match] [kd20Match] "p" "p" rfl rfl

/-- The `kd` assignment after the fold, read off the final record. -/
lemma kd_eq (ms : List MatchRec) (puuid : String) :
    (calculatePlayerStats ms puuid).kd
      = (if (calculatePlayerStats ms puuid).totalDeaths > 0
         then JSVal.str (toFixed2 (((calculatePlayerStats ms puuid).totalKills : ℚ)
            / ((calculatePlayerStats ms puuid).totalDeaths : ℚ)))
         else JSVal.num ((calculatePlayerStats ms puuid).totalKills)) := rfl

lemma kd20_kills : (calculatePlayerStats [kd20Match] "p").totalKills = 20 := by decide

lemma kd20_deaths : (calculatePlayerStats [kd20Match] "p").totalDeaths = 10 := by decide

lemma toFixed2_20_10 : toFixed2 (((20:ℕ):ℚ) / ((10:ℕ):ℚ)) = "2.00" := by
  norm_num [toFixed2, twoDigits]
  rfl

lemma kd20_value : (calculatePlayerStats [kd20Match] "p").kd = JSVal.str "2.00" := by
  rw [kd_eq, kd20_kills, kd20_deaths]
  rw [if_pos (show (10:ℕ) > 0 by norm_num)]
  rw [toFixed2_20_10]

lemma kd7_kills : (calculatePlayerStats [kd7Match] "p").totalKills = 7 := by decide

lemma kd7_deaths : (calculatePlayerStats [kd7Match] "p").totalDeaths = 0 := by decide

lemma kd7_value : (calculatePlayerStats [kd7Match] "p").kd = JSVal.num 7 := by
  rw [kd_eq, kd7_kills, kd7_deaths]
  norm_num

/-- C5 (counterexample): at the instance given in the claim (`totalKills = 20`,
`totalDeaths = 10`) the `kd` field is the formatted **string** `"2.00"`
(the result of `toFixed(2)`), not a numeric value. -/
theorem C5_counterexample :
    (calculatePlayerStats [kd20Match] "p").kd = JSVal.str "2.00"
    ∧ ((calculatePlayerStats [kd20Match] "p").kd).isNum = false := by
  refine ⟨kd20_value, ?_⟩
  rw [kd20_value]
  rfl

/-- C5 (amended): `kd` is the 2-decimal `toFixed` **string** of
`totalKills / totalDeaths` when `totalDeaths > 0`, and the raw number
`totalKills` when `totalDeaths = 0` (never infinity, never an error);
concretely, kills 20 / deaths 10 gives the string `"2.00"` and kills 7 /
deaths 0 gives the number `7`. -/
theorem C5_amended (ms : List MatchRec) (puuid : String) :
    (calculatePlayerStats ms puuid).kd
      = (if (calculatePlayerStats ms puuid).totalDeaths > 0
         then JSVal.str (toFixed2 (((calculatePlayerStats ms puuid).totalKills : ℚ)
            / ((calculatePlayerStats ms puuid).totalDeaths : ℚ)))
         else JSVal.num ((calculatePlayerStats ms puuid).totalKills))
    ∧ (calculatePlayerStats [kd20Match] "p").kd = JSVal.str "2.00"
    ∧ (calculatePlayerStats [kd7Match] "p").kd = JSVal.num 7 := by
  exact ⟨rfl, kd20_value, kd7_value⟩

/-- C6: outcome precedence in the per-match
classification of `calculatePlayerStats`.  When the participation record of the subject is found and the
team entry of the subject exists, with both a `"red"` and a `"blue"` team present:
`has_won = true` always increments `wins` (regardless of the round counts,
in particular when they are equal); a draw is recorded exactly when the flag
is unset and the `rounds_won` of the two teams agree; otherwise a loss. -/
theorem C6_holds (puuid : String) (s : Stats) (m : MatchRec) (player : MPlayer)
    (team rt bt : TeamRec)
    (hp : m.players.all_players.find? (fun p => p.puuid == puuid) = some player)
    (ht : m.teams.lookup (jsToLower player.team) = some team)
    (hr : m.teams.lookup "red" = some rt)
    (hb : m.teams.lookup "blue" = some bt) :
    (team.has_won = true →
        (processMatch puuid s m).wins = s.wins + 1
        ∧ (processMatch puuid s m).draws = s.draws
        ∧ (processMatch puuid s m).losses = s.losses)
    ∧ (team.has_won = false → rt.rounds_won = bt.rounds_won →
        (processMatch puuid s m).draws = s.draws + 1
        ∧ (processMatch puuid s m).wins = s.wins
        ∧ (processMatch puuid s m).losses = s.losses)
    ∧ (team.has_won = false → rt.rounds_won ≠ bt.rounds_won →
        (processMatch puuid s m).losses = s.losses + 1
        ∧ (processMatch puuid s m).wins = s.wins
        ∧ (processMatch puuid s m).draws = s.draws) := by
  refine ⟨fun hw => ?_, fun hw heq => ?_, fun hw hne => ?_⟩
  · simp [processMatch, hp, ht, addOutcome, hw]
  · have hrb : redBlueRoundsEqual m = true := by
      simp [redBlueRoundsEqual, hr, hb, heq]
    simp [processMatch, hp, ht, addOutcome, hw, hrb]
  · have hrb : redBlueRoundsEqual m = false := by
      simp [redBlueRoundsEqual, hr, hb]
      exact hne
    simp [processMatch, hp, ht, addOutcome, hw, hrb]

/-- C6 witness: a concrete match where the team of the subject has `has_won = true`
and the `rounds_won` of both teams are equal (10 each) is classified as a win. -/
theorem C6_witness :
    (processMatch "p" (initStats 1) winDrawMatch).wins = (initStats 1).wins + 1
    ∧ (processMatch "p" (initStats 1) winDrawMatch).draws = (initStats 1).draws
    ∧ (processMatch "p" (initStats 1) winDrawMatch).losses = (initStats 1).losses :=
  (C6_holds "p" (initStats 1) winDrawMatch (exPlayer "p" "Red" 1 1)
    { has_won := true, rounds_won := 10, rounds_lost := 10 }
    { has_won := true, rounds_won := 10, rounds_lost := 10 }
    { has_won := false, rounds_won := 10, rounds_lost := 10 }
    (by decide) (by decide) (by decide) (by decide)).1 rfl

/-- C10: when the participation record of the subject is found, the team entry of the subject exists with `has_won = false`, and the teams map has neither a `"red"`
nor a `"blue"` entry, the optional-chained comparison is
`undefined === undefined`, so the match is recorded as a draw, not a loss. -/
theorem C10_holds (puuid : String) (s : Stats) (m : MatchRec) (player : MPlayer)
    (team : TeamRec)
    (hp : m.players.all_players.find? (fun p => p.puuid == puuid) = some player)
    (ht : m.teams.lookup (jsToLower player.team) = some team)
    (hw : team.has_won = false)
    (hr : m.teams.lookup "red" = none)
    (hb : m.teams.lookup "blue" = none) :
    (processMatch puuid s m).draws = s.draws + 1
    ∧ (processMatch puuid s m).wins = s.wins
    ∧ (processMatch puuid s m).losses = s.losses := by
  have hrb : redBlueRoundsEqual m = true := by
    simp [redBlueRoundsEqual, hr, hb]
  simp [processMatch, hp, ht, addOutcome, hw, hrb]

/-- C10 witness: a concrete match with only a `"green"` team entry
(`has_won = false`) is classified as a draw. -/
theorem C10_witness :
    (processMatch "p" (initStats 1) greenMatch).draws = (initStats 1).draws + 1
    ∧ (processMatch "p" (initStats 1) greenMatch).wins = (initStats 1).wins
    ∧ (processMatch "p" (initStats 1) greenMatch).losses = (initStats 1).losses :=
  C10_holds "p" (initStats 1) greenMatch (exPlayer "p" "Green" 2 3)
    { has_won := false, rounds_won := 8, rounds_lost := 8 }
    (by decide) (by decide) rfl (by decide) (by decide)

/-! ## Claims about the upstream client and the profile assembler -/

/-- C1 (counterexample): with a two-entry match list whose second detail
fetch fails, `getRecentMatchesWithDetails` rejects as a whole — even though
the successful subset (`[exDetail]`) exists — instead of returning the
records of the fetches that succeeded. -/
theorem C1_counterexample :
    (getRecentMatchesWithDetails 10 (.ok exHist2) exDetailsOneFails).isOk = false
    ∧ (exHist2.history.map (fun h => exDetailsOneFails h.matchId)).filterMap Except.toOption
        = [exDetail] := by
  exact ⟨rfl, by decide⟩

/-- C1 (amended): a failure fetching one match detail aborts the whole
composite: `getRecentMatchesWithDetails` returns the full detail list (in
match-list order) when every detail fetch succeeds, and propagates an error
to the caller as soon as any detail fetch fails; the drop-failed-fetches
behaviour lives in the inline fan-out of `getPlayerProfile` instead. -/
theorem C1_amended (count : Nat) (mh : MatchHistory)
    (details : String → Except String MatchRec) :
    ((∀ h ∈ mh.history, (details h.matchId).isOk = true) →
      getRecentMatchesWithDetails count (.ok mh) details
        = .ok ((mh.history.map (fun h => details h.matchId)).filterMap Except.toOption))
    ∧ ((∃ h ∈ mh.history, (details h.matchId).isOk = false) →
      (getRecentMatchesWithDetails count (.ok mh) details).isOk = false) := by
  constructor
  · intro hall
    exact promiseAll_all_ok _ (by
      intro x hx
      rcases List.mem_map.mp hx with ⟨h, hh, rfl⟩
      exact hall h hh)
  · rintro ⟨h, hh, hko⟩
    exact promiseAll_has_error _ ⟨details h.matchId, List.mem_map_of_mem _ hh, hko⟩

/-- C1 witness: with all three detail fetches succeeding, the composite
returns exactly the fetched records. -/
theorem C1_witness :
    getRecentMatchesWithDetails 5 (.ok exHist3) exDetailsAllOk
      = .ok ((exHist3.history.map (fun h => exDetailsAllOk h.matchId)).filterMap
          Except.toOption) :=
  (C1_amended 5 exHist3 exDetailsAllOk).1 (by decide)

/-- C4 (counterexample): with a three-entry upstream history and
`count = 2`, the fan-out fetches and returns all three match records —
the result is not truncated to at most `count` entries. -/
theorem C4_counterexample :
    getRecentMatchesWithDetails 2 (.ok exHist3) exDetailsAllOk
        = .ok [exDetail, exDetail, exDetail]
    ∧ ¬ ((3:Nat) ≤ 2) := by
  exact ⟨by decide, by decide⟩

/-- C4 (amended): the match-list URL carries no count parameter (the request
is identical for every `count`, so there is no server-side truncation), and
`getRecentMatchesWithDetails` performs no client-side truncation either: when
all detail fetches succeed it returns one record per history entry, in the
upstream-reported order; `count` only reaches the cache key. -/
theorem C4_amended :
    (∀ (puuid region : String) (c c' : Nat),
      (getMatchHistoryReq puuid region c).url = (getMatchHistoryReq puuid region c').url)
    ∧ (∀ (count : Nat) (mh : MatchHistory) (details : String → Except String MatchRec),
        (∀ h ∈ mh.history, (details h.matchId).isOk = true) →
        getRecentMatchesWithDetails count (.ok mh) details
          = .ok ((mh.history.map (fun h => details h.matchId)).filterMap Except.toOption)
        ∧ ((mh.history.map (fun h => details h.matchId)).filterMap Except.toOption).length
            = mh.history.length) := by
  constructor
  · intro puuid region c c'; rfl
  · intro count mh details hall
    have hmem : ∀ x ∈ mh.history.map (fun h => details h.matchId), x.isOk = true := by
      intro x hx
      rcases List.mem_map.mp hx with ⟨h, hh, rfl⟩
      exact hall h hh
    refine ⟨promiseAll_all_ok _ hmem, ?_⟩
    rw [filterMap_toOption_length _ hmem, List.length_map]

/-- C4 witness: at the concrete three-entry history with `count = 2` the
amended statement yields three records. -/
theorem C4_witness :
    getRecentMatchesWithDetails 2 (.ok exHist3) exDetailsAllOk
      = .ok ((exHist3.history.map (fun h => exDetailsAllOk h.matchId)).filterMap
          Except.toOption)
    ∧ ((exHist3.history.map (fun h => exDetailsAllOk h.matchId)).filterMap
          Except.toOption).length = exHist3.history.length :=
  C4_amended.2 2 exHist3 exDetailsAllOk (by decide)

/-- C3 (counterexample): two account lookups that differ only in `region`
produce different request URLs (they are different logical requests) yet the
same cache key, so they share a cache entry within the TTL window. -/
theorem C3_counterexample :
    (getAccountByRiotIdReq "a" "b" "europe").cacheKey
        = (getAccountByRiotIdReq "a" "b" "americas").cacheKey
    ∧ (getAccountByRiotIdReq "a" "b" "europe").url
        ≠ (getAccountByRiotIdReq "a" "b" "americas").url := by
  exact ⟨rfl, by decide⟩

/-- C3 (amended): cache keys are determined by the operation name and only a
subset of the request parameters — `region` is omitted from the account,
match-list and match-detail keys, so requests differing only in region share
an entry — while a repeated request under the same key is served from the
cache without a second network call. -/
theorem C3_amended :
    (∀ (g t r r' : String),
      (getAccountByRiotIdReq g t r).cacheKey = (getAccountByRiotIdReq g t r').cacheKey)
    ∧ (∀ (p r r' : String) (c : Nat),
      (getMatchHistoryReq p r c).cacheKey = (getMatchHistoryReq p r' c).cacheKey)
    ∧ (∀ (mId r r' : String),
      (getMatchDetailsReq mId r).cacheKey = (getMatchDetailsReq mId r').cacheKey)
    ∧ (∀ (α : Type) (cache : List (String × α)) (k : String)
        (f1 : Except String α) (v : α) (c' : List (String × α)) (b : Bool),
        makeRequest cache (some k) f1 = (.ok v, c', b) →
        ∀ f2, makeRequest c' (some k) f2 = (.ok v, c', false)) := by
  refine ⟨fun g t r r' => rfl, fun p r r' c => rfl, fun mId r r' => rfl, ?_⟩
  intro α cache k f1 v c' b hreq f2
  unfold makeRequest at hreq ⊢
  dsimp only at hreq ⊢
  cases hl : cache.lookup k with
  | some w =>
    rw [hl] at hreq
    simp only [Prod.mk.injEq, Except.ok.injEq] at hreq
    obtain ⟨hv, hc, hb⟩ := hreq
    subst hv
    rw [← hc, hl]
  | none =>
    rw [hl] at hreq
    cases f1 with
    | ok d =>
      simp only [Prod.mk.injEq, Except.ok.injEq] at hreq
      obtain ⟨hv, hc, hb⟩ := hreq
      subst hv
      rw [← hc]
      simp [List.lookup]
    | error e => simp at hreq

/-- C3 witness: after a successful fetch stored under the account cache key,
a second request with the same key is answered from the cache (network flag
`false`) even though its own fetch outcome would have been an error. -/
theorem C3_witness :
    makeRequest [("account:a:b", "resp")] (some "account:a:b") (.error "down")
      = (Except.ok "resp", [("account:a:b", "resp")], false) :=
  C3_amended.2.2.2 String [] "account:a:b" (.ok "resp") "resp"
    [("account:a:b", "resp")] true rfl (.error "down")

/-- C8: profile assembly degrades instead of failing: when account
resolution succeeds and the match-history fetch fails or returns an empty
history, `getPlayerProfile` returns a profile carrying the all-zero fallback
snapshot (`totalMatches = 0`) and a `null` rank; whenever account resolution
succeeds the call never raises, and only an account-resolution failure
propagates as an error. -/
theorem C8_holds (now : Nat) (accountRes : Except String Account)
    (mhRes : Except String MatchHistory) (details : String → Except String MatchRec) :
    (∀ acct, accountRes = .ok acct →
        (mhRes.isOk = false ∨ mhRes = .ok { history := [] }) →
        getPlayerProfile now accountRes mhRes details
          = .ok { account := acct, rank := none,
                  statistics := .fallback fallbackStats, lastUpdated := now })
    ∧ fallbackStats.totalMatches = 0
    ∧ (∀ acct, accountRes = .ok acct →
        (getPlayerProfile now accountRes mhRes details).isOk = true)
    ∧ (∀ e, accountRes = .error e →
        getPlayerProfile now accountRes mhRes details = .error e) := by
  refine ⟨?_, rfl, ?_, ?_⟩
  · intro acct ha hmh
    subst ha
    have hpf : profileFetchMatches mhRes details = [] := by
      rcases hmh with hko | hempty
      · cases mhRes with
        | error e => rfl
        | ok mh => simp [Except.isOk, Except.toBool] at hko
      · subst hempty; rfl
    unfold getPlayerProfile
    rw [hpf]
    rfl
  · intro acct ha
    subst ha
    rfl
  · intro e he
    subst he
    rfl

/-- C8 witness: with a concretely resolved account and a failed (`"503"`)
match-history fetch, the profile is returned with the fallback snapshot and
`rank = null`. -/
theorem C8_witness :
    getPlayerProfile 42 (.ok exAccount) (.error "503") (fun x => .error "x")
      = .ok { account := exAccount, rank := none,
              statistics := .fallback fallbackStats, lastUpdated := 42 } :=
  (C8_holds 42 (.ok exAccount) (.error "503") (fun x => .error "x")).1
    exAccount rfl (Or.inl rfl)
